import Mathlib

/-!
Verification development for the MadMine repository.

The Python sources are shallowly embedded: each Python class becomes a Lean
structure, each method a Lean function on that structure.  Engine-side state
(the scene graph, the input dictionary, the camera) is made explicit where the
code reads or writes it; Python exceptions are modelled with `Except`.
-/

namespace MadMine

/-- Ursina's Vec3, restricted to the integer coordinates used throughout the
repository's world generators. -/
structure Vec3 where
  x : Int
  y : Int
  z : Int
deriving DecidableEq, Repr

/-- The ursina color values that appear in the sources. -/
inductive PyColor where
  | green
  | red
  | blue
  | yellow
  | orange
  | white
  | black
  | gray
  | cyan
deriving DecidableEq, Repr

/-- Python exceptions the embedded code can raise. -/
inductive PyErr where
  | keyError (key : String)
  | attributeError (attr : String)
  | engineError (msg : String)
deriving DecidableEq, Repr

/-- The pure data of a `Block` (`position`, `block_type`, `color` fields of
`Block.__init__` in `src/world/world_generator.py`). -/
structure BlockData where
  position : Vec3
  block_type : String
  color : PyColor
deriving DecidableEq, Repr

/-- A `Block`: its data fields plus `self.entity`, the cube `Entity` created in
the engine scene, identified here by a numeric handle. -/
structure Block where
  position : Vec3
  block_type : String
  color : PyColor
  entity : Nat
deriving DecidableEq, Repr

/-- Projection of a `Block` to its pure data fields. -/
def Block.data (b : Block) : BlockData :=
  ⟨b.position, b.block_type, b.color⟩

/-- One entry of a producer function's returned sequence (`pos_data` in
`WorldGenerator.generate_world`): a Python tuple of numbers, a dict with
optional `position` / `color` / `type` keys, or any other value. -/
inductive PosData where
  | tup (elems : List Int)
  | dict (position : Option (Int × Int × Int)) (color : Option PyColor) (ty : Option String)
  | other
deriving DecidableEq, Repr

/-- The state of a `WorldGenerator` together with the slice of the engine scene
it touches: `blocks` and `world_size` are the Python attributes; `scene` is the
set of block `Entity` handles currently attached to the scene graph, and
`next_entity` the supply of fresh handles for newly constructed entities. -/
structure WorldGenerator where
  blocks : List Block
  world_size : Nat
  scene : List Nat
  next_entity : Nat
deriving DecidableEq, Repr

/-- `WorldGenerator.__init__`: empty block list, `world_size = 16`. -/
def WorldGenerator.init : WorldGenerator :=
  { blocks := [], world_size := 16, scene := [], next_entity := 0 }

/-- `Block.__init__`: record the fields and create the cube `Entity` in the
scene; returns the block and the generator state with the new entity attached. -/
def createBlock (w : WorldGenerator) (position : Vec3) (block_type : String)
    (block_color : PyColor) : Block × WorldGenerator :=
  (⟨position, block_type, block_color, w.next_entity⟩,
   { w with scene := w.scene ++ [w.next_entity], next_entity := w.next_entity + 1 })

/-- `WorldGenerator.clear_world`: `removeNode` every block's entity from the
scene, then clear the block list. -/
def clear_world (w : WorldGenerator) : WorldGenerator :=
  { w with
    scene := w.scene.filter (fun e => !(w.blocks.map Block.entity).contains e),
    blocks := [] }

/-- One iteration of the `for pos_data in block_positions` loop body of
`WorldGenerator.generate_world`: a 3-element tuple becomes a default grass
block; a dict is read at key `"position"` (raising `KeyError` when absent) with
`color` and `type` defaulted via `.get`; anything else is skipped (`continue`). -/
def processEntry (w : WorldGenerator) (pos_data : PosData) :
    Except PyErr WorldGenerator :=
  match pos_data with
  | .tup [x, y, z] =>
      let (block, w') := createBlock w ⟨x, y, z⟩ "grass" .green
      .ok { w' with blocks := w'.blocks ++ [block] }
  | .tup _ => .ok w
  | .dict position c t =>
      match position with
      | some (x, y, z) =>
          let (block, w') := createBlock w ⟨x, y, z⟩ (t.getD "grass") (c.getD .green)
          .ok { w' with blocks := w'.blocks ++ [block] }
      | none => .error (.keyError "position")
  | .other => .ok w

/-- The whole `for pos_data in block_positions` loop of `generate_world`. -/
def generateLoop (w : WorldGenerator) : List PosData → Except PyErr WorldGenerator
  | [] => .ok w
  | e :: es =>
      match processEntry w e with
      | .ok w' => generateLoop w' es
      | .error err => .error err

/-- `WorldGenerator.simple_random_world`: a flat `world_size × world_size`
ground layer at `y = 0` followed by 20 random blocks; `rand i` supplies the
`i`-th iteration's `random.randint` draws `(x, y, z)`. -/
def simple_random_world (w : WorldGenerator) (rand : Nat → Int × Int × Int) :
    List PosData :=
  let ground := (List.range w.world_size).flatMap fun (x : Nat) =>
    (List.range w.world_size).map fun (z : Nat) => PosData.tup [(x : Int), 0, (z : Int)]
  let extra := (List.range 20).map fun i =>
    PosData.tup [(rand i).1, (rand i).2.1, (rand i).2.2]
  ground ++ extra

/-- `WorldGenerator.generate_world`, with the producer's returned sequence made
explicit: `producer = some entries` models calling with a generator function
whose call returned `entries`; `producer = none` models the default branch, in
which `simple_random_world` is used with the random draws given by `rand`.
Returns the new generator state paired with the returned block list. -/
def generate_world (w : WorldGenerator) (producer : Option (List PosData))
    (rand : Nat → Int × Int × Int) : Except PyErr (WorldGenerator × List Block) :=
  let w := clear_world w
  let block_positions : List PosData :=
    match producer with
    | some entries => entries
    | none => simple_random_world w rand
  match generateLoop w block_positions with
  | .ok w' => .ok (w', w'.blocks)
  | .error e => .error e

/-- `WorldGenerator.get_block_count`. -/
def get_block_count (w : WorldGenerator) : Nat :=
  w.blocks.length

/-- The dict returned by `WorldGenerator.get_world_info`. -/
structure WorldInfo where
  total_blocks : Nat
  world_size : Nat
  block_types : List String
deriving DecidableEq, Repr

/-- `WorldGenerator.get_world_info`. -/
def get_world_info (w : WorldGenerator) : WorldInfo :=
  { total_blocks := w.blocks.length
    world_size := w.world_size
    block_types := (w.blocks.map Block.block_type).dedup }

/-- The example producer `flat_world`. -/
def flat_world : List PosData :=
  (List.range 10).flatMap fun (x : Nat) =>
    (List.range 10).map fun (z : Nat) => PosData.tup [(x : Int), 0, (z : Int)]

/-- The example producer `pyramid_world`. -/
def pyramid_world : List PosData :=
  (List.range 5).flatMap fun (y : Nat) =>
    let size := 5 - y
    (List.range size).flatMap fun (x : Nat) =>
      (List.range size).map fun (z : Nat) =>
        PosData.dict (some (((x + y : Nat) : Int), ((y : Nat) : Int), ((z + y : Nat) : Int)))
          (some ([PyColor.red, .blue, .green, .yellow, .orange].getD y .green))
          (some ("pyramid_layer_" ++ toString y))

/-- The example producer `checkerboard_world`. -/
def checkerboard_world : List PosData :=
  (List.range 8).flatMap fun (x : Nat) =>
    (List.range 8).map fun (z : Nat) =>
      PosData.dict (some ((x : Int), 0, (z : Int)))
        (some (if (x + z) % 2 = 0 then PyColor.white else PyColor.black))
        (some "checkerboard")

/-- The block data that a single producer entry normalizes to in the
`generate_world` loop: `some` for the two accepted shapes, `none` for a
skipped entry.  (A dict without a `position` key raises instead; see
`processEntry`.) -/
def entryData : PosData → Option BlockData
  | .tup [x, y, z] => some ⟨⟨x, y, z⟩, "grass", .green⟩
  | .tup _ => none
  | .dict (some (x, y, z)) c t => some ⟨⟨x, y, z⟩, t.getD "grass", c.getD .green⟩
  | .dict none _ _ => none
  | .other => none

/-- Recognizes the one entry shape on which the `generate_world` loop raises:
a dict with no `position` key. -/
def isMissingPositionDict : PosData → Bool
  | .dict none _ _ => true
  | _ => false

/-- Recognizes the entries the loop skips via `continue` or the failed tuple
length test: anything that is neither a tuple of length 3 nor a dict. -/
def isSkippedEntry : PosData → Bool
  | .tup elems => decide (elems.length ≠ 3)
  | .dict _ _ _ => false
  | .other => true

/-- The blocks the `generate_world` loop appends for a list of entries, with
entity handles allocated sequentially from `n`. -/
def newBlocks : List PosData → Nat → List Block
  | [], _ => []
  | e :: es, n =>
      match entryData e with
      | some d => ⟨d.position, d.block_type, d.color, n⟩ :: newBlocks es (n + 1)
      | none => newBlocks es n

/-- The slice of the engine's global state read by the player code in
`src/game/player_controller.py`: the `held_keys` input dictionary (`none`
models it being `None`/unusable — the input source unavailable), the camera's
forward vector (`none` models reading `camera.forward` raising), and whether
the engine-backed controller attributes can currently be read. -/
structure EngineEnv where
  held_keys : Option (List String)
  camera_forward : Option Vec3
  controller_readable : Bool
deriving DecidableEq, Repr

/-- A `held_keys` dictionary lookup `held_keys.get(k, False)`. -/
def keyHeld (ks : List String) (k : String) : Bool :=
  ks.contains k

/-- The engine-backed `FirstPersonController` attributes used by `Player`:
its position and its `speed` attribute (`none` models the attribute being
absent, the case `getattr` defends against). -/
structure Controller where
  position : Vec3
  speed : Option Int
deriving DecidableEq, Repr

/-- The state of a `Player` (`src/game/player_controller.py`). -/
structure PlayerState where
  controller : Controller
  normal_speed : Int
  run_speed : Int
  jump_height : Int
deriving DecidableEq, Repr

/-- `Player.__init__` with the default start position: controller at
`(0, 2, 0)` with `speed=5`, `normal_speed = 5`, `run_speed = 8`,
`jump_height = 3`. -/
def PlayerState.init : PlayerState :=
  { controller := { position := ⟨0, 2, 0⟩, speed := some 5 }
    normal_speed := 5
    run_speed := 8
    jump_height := 3 }

/-- `Player.update`: sets `controller.speed` to `run_speed` when a shift key is
held, else to `normal_speed`; a falsy/absent `held_keys` takes the else branch
(and the `except` clause likewise applies `normal_speed`). -/
def Player.update (p : PlayerState) (env : EngineEnv) : PlayerState :=
  match env.held_keys with
  | some ks =>
      if keyHeld ks "left shift" || keyHeld ks "right shift" then
        { p with controller := { p.controller with speed := some p.run_speed } }
      else
        { p with controller := { p.controller with speed := some p.normal_speed } }
  | none =>
      { p with controller := { p.controller with speed := some p.normal_speed } }

/-- `Player.get_position`: reads `controller.position` from the engine; fails
when the controller state is unreadable. -/
def Player.get_position (p : PlayerState) (env : EngineEnv) : Except PyErr Vec3 :=
  if env.controller_readable then .ok p.controller.position
  else .error (.engineError "controller")

/-- `Player.get_looking_direction`: reads `camera.forward`; fails when the
camera is unavailable. -/
def Player.get_looking_direction (env : EngineEnv) : Except PyErr Vec3 :=
  match env.camera_forward with
  | some v => .ok v
  | none => .error (.engineError "camera")

/-- `Player.is_moving`: `False` when `held_keys` is falsy or unusable, else
whether any of `w`, `s`, `a`, `d` is held. -/
def Player.is_moving (env : EngineEnv) : Bool :=
  match env.held_keys with
  | none => false
  | some ks => keyHeld ks "w" || keyHeld ks "s" || keyHeld ks "a" || keyHeld ks "d"

/-- `Player.is_running`: `False` when `held_keys` is falsy or unusable, else
whether a shift key is held. -/
def Player.is_running (env : EngineEnv) : Bool :=
  match env.held_keys with
  | none => false
  | some ks => keyHeld ks "left shift" || keyHeld ks "right shift"

/-- The dict returned by `Player.get_movement_info`. -/
structure MovementInfo where
  position : Vec3
  is_moving : Bool
  is_running : Bool
  speed : Int
  looking_direction : Vec3
deriving DecidableEq, Repr

/-- `Player.get_movement_info`: builds the info dict inside a `try`; if any of
the engine reads raises, the `except` branch returns the safe-default dict.
Total by construction — the method never raises. -/
def Player.get_movement_info (p : PlayerState) (env : EngineEnv) : MovementInfo :=
  let attempt : Except PyErr MovementInfo := do
    let pos ← Player.get_position p env
    let look ← Player.get_looking_direction env
    pure
      { position := pos
        is_moving := Player.is_moving env
        is_running := Player.is_running env
        speed := p.controller.speed.getD p.normal_speed
        looking_direction := look }
  match attempt with
  | .ok info => info
  | .error _ =>
      { position := ⟨0, 0, 0⟩
        is_moving := false
        is_running := false
        speed := p.normal_speed
        looking_direction := ⟨0, 0, 1⟩ }

/-- The display state owned by `GameUI` (`src/ui/game_ui.py`): the text of each
`Text` element and the help/welcome visibility flags. -/
structure GameUIState where
  main_title : String
  position_text : String
  world_info_text : String
  fps_text : String
  help_visible : Bool
  welcome_visible : Bool
deriving DecidableEq, Repr

/-- `GameUI.__init__` / `setup_ui` defaults. -/
def GameUIState.init : GameUIState :=
  { main_title := "MadMine - Loading..."
    position_text := "Position: (0, 0, 0)"
    world_info_text := "Blocks: 0"
    fps_text := "FPS: --"
    help_visible := false
    welcome_visible := true }

/-- `GameUI.toggle_help`. -/
def GameUI.toggle_help (ui : GameUIState) : GameUIState :=
  { ui with help_visible := !ui.help_visible }

/-- `GameUI.hide_welcome_message`. -/
def GameUI.hide_welcome_message (ui : GameUIState) : GameUIState :=
  { ui with welcome_visible := false }

/-- `GameUI.update_main_title`. -/
def GameUI.update_main_title (ui : GameUIState) (world_name : String) : GameUIState :=
  { ui with main_title := "🎮 " ++ world_name }

/-- The position string built by `GameUI.update_player_info`. -/
def formatPos (pos : Vec3) (is_moving is_running : Bool) : String :=
  let base := "Position: (" ++ toString pos.x ++ ", " ++ toString pos.y ++ ", "
    ++ toString pos.z ++ ")"
  if is_running then base ++ " 🏃"
  else if is_moving then base ++ " 🚶"
  else base

/-- `GameUI.update_player_info`: assigns the formatted position to the
`position_text` element.  `err` is the engine's behaviour for this `Text`
assignment: `some e` models the engine raising `e`, leaving the element
unchanged. -/
def GameUI.update_player_info (ui : GameUIState) (err : Option PyErr) (pos : Vec3)
    (is_moving is_running : Bool) : GameUIState × Option PyErr :=
  match err with
  | some e => (ui, some e)
  | none => ({ ui with position_text := formatPos pos is_moving is_running }, none)

/-- `GameUI.update_world_info`: assigns the block-count line to the
`world_info` element; `err` as in `GameUI.update_player_info`. -/
def GameUI.update_world_info (ui : GameUIState) (err : Option PyErr)
    (info : WorldInfo) : GameUIState × Option PyErr :=
  match err with
  | some e => (ui, some e)
  | none =>
      ({ ui with world_info_text := "Blocks: " ++ toString info.total_blocks
          ++ " | Size: " ++ toString info.world_size ++ "x"
          ++ toString info.world_size }, none)

/-- `GameUI.update_fps`: assigns the FPS line to the `fps` element; `err` as in
`GameUI.update_player_info`. -/
def GameUI.update_fps (ui : GameUIState) (err : Option PyErr) (fps : Int) :
    GameUIState × Option PyErr :=
  match err with
  | some e => (ui, some e)
  | none => ({ ui with fps_text := "FPS: " ++ toString fps }, none)

/-- The state of the `MadMineGame` object in `main.py`.  `current_world` is
`none` as long as the Python attribute `self.current_world` has never been
assigned (reading it then raises `AttributeError`); `world_ui_visible` is the
`WorldGeneratorUI.is_visible` flag; `running` is cleared by `quit_game`. -/
structure MadMineGame where
  world_generator : WorldGenerator
  game_ui : GameUIState
  world_ui_visible : Bool
  current_world : Option String
  last_fps_update : Int
  frame_count : Nat
  current_fps : Int
  running : Bool
deriving DecidableEq, Repr

/-- `MadMineGame.__init__`: fresh `WorldGenerator`, UI defaults, FPS counters
zeroed.  Note that `__init__` creates its startup blocks directly through the
engine, bypassing the `WorldGenerator`, and never assigns
`self.current_world`. -/
def MadMineGame.init : MadMineGame :=
  { world_generator := WorldGenerator.init
    game_ui := GameUIState.init
    world_ui_visible := false
    current_world := none
    last_fps_update := 0
    frame_count := 0
    current_fps := 0
    running := true }

/-- `MadMineGame.reload_world`: picks the producer for `generator_name`
(`flat_world` as default), regenerates the world through the
`WorldGenerator`, updates the UI title/message/welcome state, and records
`self.current_world = generator_name or "random"`. -/
def MadMineGame.reload_world (g : MadMineGame) (generator_name : Option String) :
    Except PyErr MadMineGame :=
  let pick : List PosData × String :=
    if generator_name = some "flat" then (flat_world, "Flat World")
    else if generator_name = some "pyramid" then (pyramid_world, "Pyramid World")
    else if generator_name = some "checkerboard" then
      (checkerboard_world, "Checkerboard World")
    else (flat_world, "Flat World (Default)")
  match generate_world g.world_generator (some pick.1) (fun _ => (0, 0, 0)) with
  | .error e => .error e
  | .ok (wg, _) =>
      let ui := GameUI.hide_welcome_message (GameUI.update_main_title g.game_ui pick.2)
      .ok { g with
        world_generator := wg
        game_ui := ui
        current_world := some (match generator_name with
          | some n => if n = "" then "random" else n
          | none => "random") }

/-- `MadMineGame.quit_game`. -/
def MadMineGame.quit_game (g : MadMineGame) : MadMineGame :=
  { g with running := false }

/-- The per-key handler `MadMineGame.input`: `h` toggles help, `r` reloads
using `self.current_world` (raising `AttributeError` when that attribute was
never assigned), `1`-`4` load the named builtin worlds, `g` toggles the
generator menu, `escape` quits; any other key falls through. -/
def MadMineGame.input (g : MadMineGame) (key : String) : Except PyErr MadMineGame :=
  if key = "h" then .ok { g with game_ui := GameUI.toggle_help g.game_ui }
  else if key = "r" then
    match g.current_world with
    | none => .error (.attributeError "current_world")
    | some w => g.reload_world (some w)
  else if key = "1" then g.reload_world (some "flat")
  else if key = "2" then g.reload_world (some "pyramid")
  else if key = "3" then g.reload_world (some "checkerboard")
  else if key = "4" then g.reload_world (some "random")
  else if key = "g" then .ok { g with world_ui_visible := !g.world_ui_visible }
  else if key = "escape" then .ok g.quit_game
  else .ok g

/-- The per-tick environment of `MadMineGame.update`: the input dictionary,
the player's engine position, the engine's behaviour for each of the three
`Text` assignments the tick performs, and the current wall-clock time in
seconds. -/
structure TickEnv where
  held_keys : Option (List String)
  player_position : Vec3
  ui_player_info_err : Option PyErr
  ui_world_info_err : Option PyErr
  ui_fps_err : Option PyErr
  now : Int
deriving DecidableEq, Repr

/-- The per-tick `MadMineGame.update`.  The player-info and world-info UI
updates run inside `try ... except Exception` (an error there is logged and
swallowed), while the FPS-counter section that follows is outside that
`try`, so an engine error in `game_ui.update_fps` propagates out of the
tick. -/
def MadMineGame.update (g : MadMineGame) (env : TickEnv) :
    Except PyErr MadMineGame :=
  let is_moving :=
    match env.held_keys with
    | some ks => keyHeld ks "w" || keyHeld ks "a" || keyHeld ks "s" || keyHeld ks "d"
    | none => false
  let is_running :=
    match env.held_keys with
    | some ks => keyHeld ks "left shift" || keyHeld ks "right shift"
    | none => false
  let (ui1, e1) := GameUI.update_player_info g.game_ui env.ui_player_info_err
    env.player_position is_moving is_running
  let (ui2, _) :=
    match e1 with
    | some e => (ui1, some e)
    | none => GameUI.update_world_info ui1 env.ui_world_info_err
        (get_world_info g.world_generator)
  let g1 := { g with game_ui := ui2 }
  let frame_count := g1.frame_count + 1
  if env.now - g1.last_fps_update ≥ 1 then
    let fps : Int := (frame_count : Int) / (env.now - g1.last_fps_update)
    match GameUI.update_fps g1.game_ui env.ui_fps_err fps with
    | (_, some e) => .error e
    | (ui3, none) =>
        .ok { g1 with
          game_ui := ui3
          current_fps := fps
          frame_count := 0
          last_fps_update := env.now }
  else
    .ok { g1 with frame_count := frame_count }

/-- The generator state produced by a successful `generate_world` call on a
cleared generator: the blocks built from `entries` with entities allocated
from `w`'s supply, attached to the scene left by `clear_world`. -/
def generatedState (w : WorldGenerator) (entries : List PosData) : WorldGenerator :=
  { blocks := newBlocks entries w.next_entity
    world_size := w.world_size
    scene := (clear_world w).scene ++ (newBlocks entries w.next_entity).map Block.entity
    next_entity := w.next_entity + (entries.filterMap entryData).length }

/-- An engine state in which a shift key is held and everything is readable. -/
def shiftEnv : EngineEnv :=
  { held_keys := some ["left shift"], camera_forward := some ⟨0, 0, 1⟩,
    controller_readable := true }

/-- An engine state whose input source is unavailable (`held_keys` is `None`)
while the controller and camera still read fine. -/
def lostInputEnv : EngineEnv :=
  { held_keys := none, camera_forward := some ⟨0, 0, 1⟩,
    controller_readable := true }

/-- The player after one `update` tick with shift held: its controller speed is
the run speed. -/
def runningPlayer : PlayerState :=
  Player.update PlayerState.init shiftEnv

/-- A tick one second after the last FPS refresh in which the engine raises
while `game_ui.update_fps` assigns the FPS text. -/
def fpsFailTick : TickEnv :=
  { held_keys := none, player_position := ⟨0, 0, 0⟩, ui_player_info_err := none,
    ui_world_info_err := none, ui_fps_err := some (.engineError "fps text"),
    now := 2 }

/-- A tick in which the engine raises while `game_ui.update_player_info`
assigns the position text (inside the protected section), with the FPS branch
not due. -/
def uiFailTick : TickEnv :=
  { held_keys := none, player_position := ⟨0, 0, 0⟩,
    ui_player_info_err := some (.engineError "position text"),
    ui_world_info_err := none, ui_fps_err := none, now := 0 }

lemma processEntry_spec (w : WorldGenerator) (e : PosData) :
    processEntry w e =
      match entryData e with
      | some d =>
          .ok { w with
            blocks := w.blocks ++ [⟨d.position, d.block_type, d.color, w.next_entity⟩]
            scene := w.scene ++ [w.next_entity]
            next_entity := w.next_entity + 1 }
      | none =>
          cond (isMissingPositionDict e) (.error (.keyError "position")) (.ok w) := by
  cases e with
  | tup elems =>
      rcases elems with _ | ⟨x, _ | ⟨y, _ | ⟨z, _ | ⟨a, rest⟩⟩⟩⟩ <;> rfl
  | dict position c t =>
      rcases position with _ | ⟨x, y, z⟩ <;> rfl
  | other => rfl

lemma generateLoop_ok (entries : List PosData) :
    ∀ w : WorldGenerator, (∀ e ∈ entries, isMissingPositionDict e = false) →
      generateLoop w entries =
        .ok { blocks := w.blocks ++ newBlocks entries w.next_entity
              world_size := w.world_size
              scene := w.scene ++ (newBlocks entries w.next_entity).map Block.entity
              next_entity := w.next_entity + (entries.filterMap entryData).length } := by
  induction entries with
  | nil => intro w _; simp [generateLoop, newBlocks]
  | cons e es ih =>
      intro w h
      have he : isMissingPositionDict e = false := h e (List.mem_cons_self e es)
      have hes : ∀ x ∈ es, isMissingPositionDict x = false :=
        fun x hx => h x (List.mem_cons_of_mem e hx)
      rw [generateLoop, processEntry_spec]
      cases hd : entryData e with
      | none =>
          simp only [he, cond_false]
          rw [ih w hes]
          simp [newBlocks, hd, List.filterMap_cons]
      | some d =>
          simp only []
          rw [ih _ hes]
          simp [newBlocks, hd, List.filterMap_cons, List.append_assoc]
          omega

lemma newBlocks_map_data (entries : List PosData) :
    ∀ n : Nat, (newBlocks entries n).map Block.data = entries.filterMap entryData := by
  induction entries with
  | nil => intro n; simp [newBlocks]
  | cons e es ih =>
      intro n
      cases hd : entryData e with
      | none => simp [newBlocks, hd, ih]
      | some d => simp [newBlocks, hd, ih, Block.data]

lemma newBlocks_length (entries : List PosData) (n : Nat) :
    (newBlocks entries n).length = (entries.filterMap entryData).length := by
  have := newBlocks_map_data entries n
  calc (newBlocks entries n).length = ((newBlocks entries n).map Block.data).length := by
        simp
    _ = (entries.filterMap entryData).length := by rw [this]

lemma newBlocks_entity_bounds (entries : List PosData) :
    ∀ n : Nat, ∀ b ∈ newBlocks entries n,
      n ≤ b.entity ∧ b.entity < n + (entries.filterMap entryData).length := by
  induction entries with
  | nil => intro n b hb; simp [newBlocks] at hb
  | cons e es ih =>
      intro n b hb
      cases hd : entryData e with
      | none =>
          rw [newBlocks, hd] at hb
          have := ih n b hb
          simp [List.filterMap_cons, hd]
          omega
      | some d =>
          rw [newBlocks, hd] at hb
          rcases List.mem_cons.mp hb with rfl | hb
          · simp [List.filterMap_cons, hd]
          · have := ih (n + 1) b hb
            simp [List.filterMap_cons, hd]
            omega

lemma generate_world_some_ok (w : WorldGenerator) (entries : List PosData)
    (rand : Nat → Int × Int × Int)
    (h : ∀ e ∈ entries, isMissingPositionDict e = false) :
    generate_world w (some entries) rand =
      .ok (generatedState w entries, (generatedState w entries).blocks) := by
  simp only [generate_world]
  rw [generateLoop_ok entries (clear_world w) h]
  simp [generatedState, clear_world]

lemma clear_world_world_size (w : WorldGenerator) :
    (clear_world w).world_size = w.world_size := rfl

lemma simple_random_world_clear (w : WorldGenerator) (rand : Nat → Int × Int × Int) :
    simple_random_world (clear_world w) rand = simple_random_world w rand := rfl

lemma generate_world_none_ok (w : WorldGenerator) (rand : Nat → Int × Int × Int)
    (h : ∀ e ∈ simple_random_world w rand, isMissingPositionDict e = false) :
    generate_world w none rand =
      .ok (generatedState w (simple_random_world w rand),
           (generatedState w (simple_random_world w rand)).blocks) := by
  simp only [generate_world]
  rw [simple_random_world_clear, generateLoop_ok (simple_random_world w rand) (clear_world w) h]
  simp [generatedState, clear_world]

lemma mem_simple_random_world (w : WorldGenerator) (rand : Nat → Int × Int × Int)
    (e : PosData) (he : e ∈ simple_random_world w rand) :
    (∃ x z : Nat, x < w.world_size ∧ z < w.world_size ∧
        e = PosData.tup [(x : Int), 0, (z : Int)]) ∨
    (∃ i : Nat, i < 20 ∧ e = PosData.tup [(rand i).1, (rand i).2.1, (rand i).2.2]) := by
  rcases List.mem_append.mp he with hg | hx
  · left
    rcases List.mem_flatMap.mp hg with ⟨x, hxr, hxm⟩
    rcases List.mem_map.mp hxm with ⟨z, hzr, rfl⟩
    exact ⟨x, z, List.mem_range.mp hxr, List.mem_range.mp hzr, rfl⟩
  · right
    rcases List.mem_map.mp hx with ⟨i, hir, rfl⟩
    exact ⟨i, List.mem_range.mp hir, rfl⟩

lemma simple_random_world_no_missing (w : WorldGenerator)
    (rand : Nat → Int × Int × Int) :
    ∀ e ∈ simple_random_world w rand, isMissingPositionDict e = false := by
  intro e he
  rcases mem_simple_random_world w rand e he with ⟨x, z, _, _, rfl⟩ | ⟨i, _, rfl⟩ <;> rfl

lemma length_filterMap_of_isSome {α β : Type} (f : α → Option β) :
    ∀ l : List α, (∀ a ∈ l, (f a).isSome) → (l.filterMap f).length = l.length := by
  intro l
  induction l with
  | nil => intro _; rfl
  | cons a l ih =>
      intro h
      have ha := h a (List.mem_cons_self a l)
      cases hf : f a with
      | none => rw [hf] at ha; simp at ha
      | some b =>
          rw [List.filterMap_cons, hf]
          simp [ih fun x hx => h x (List.mem_cons_of_mem a hx)]

lemma length_grid {α : Type} (m n : Nat) (f : Nat → Nat → α) :
    ((List.range m).flatMap fun x => (List.range n).map fun z => f x z).length
      = m * n := by
  induction m with
  | zero => simp
  | succ k ih =>
      rw [List.range_succ, List.flatMap_append, List.length_append, ih]
      simp [Nat.succ_mul]

lemma simple_random_world_length (w : WorldGenerator)
    (rand : Nat → Int × Int × Int) :
    (simple_random_world w rand).length = w.world_size * w.world_size + 20 := by
  simp only [simple_random_world, List.length_append, List.length_map,
    List.length_range, length_grid]

lemma generateLoop_append (es1 es2 : List PosData) :
    ∀ w : WorldGenerator,
      generateLoop w (es1 ++ es2) =
        (generateLoop w es1).bind fun w' => generateLoop w' es2 := by
  induction es1 with
  | nil => intro w; simp [generateLoop, Except.bind]
  | cons e es ih =>
      intro w
      rw [List.cons_append, generateLoop, generateLoop]
      cases processEntry w e with
      | ok w' => exact ih w'
      | error err => simp [Except.bind]

lemma skipped_entryData_none (e : PosData) (h : isSkippedEntry e = true) :
    entryData e = none := by
  cases e with
  | tup elems =>
      rcases elems with _ | ⟨x, _ | ⟨y, _ | ⟨z, _ | ⟨a, rest⟩⟩⟩⟩ <;>
        first
        | rfl
        | simp [isSkippedEntry] at h
  | dict position c t => simp [isSkippedEntry] at h
  | other => rfl

/-- C1: for every entry of the producer's output that is a 3-element tuple of
numbers, `generate_world` creates exactly one Block at that position with type
"grass" and the default green color, and that Block appears in the returned
collection: the returned blocks are exactly the per-entry normalizations of
the producer's entries, and a 3-tuple normalizes to exactly the default grass
block at its position. -/
theorem claim_C1 (w : WorldGenerator) (entries : List PosData)
    (rand : Nat → Int × Int × Int)
    (h : ∀ e ∈ entries, isMissingPositionDict e = false) :
    ∃ w' : WorldGenerator,
      generate_world w (some entries) rand = .ok (w', w'.blocks) ∧
      w'.blocks.map Block.data = entries.filterMap entryData ∧
      ∀ x y z : Int, entryData (PosData.tup [x, y, z]) =
        some ⟨⟨x, y, z⟩, "grass", PyColor.green⟩ := by
  refine ⟨generatedState w entries, generate_world_some_ok w entries rand h, ?_, ?_⟩
  · exact newBlocks_map_data entries w.next_entity
  · intro x y z; rfl

/-- Witness for C1 at the producer output `[(0,0,0), (1,2,3)]`. -/
theorem claim_C1_witness :
    (∀ e ∈ [PosData.tup [0, 0, 0], PosData.tup [1, 2, 3]],
      isMissingPositionDict e = false) ∧
    (∃ w' : WorldGenerator,
      generate_world WorldGenerator.init
        (some [PosData.tup [0, 0, 0], PosData.tup [1, 2, 3]]) (fun _ => (0, 0, 0))
          = .ok (w', w'.blocks) ∧
      w'.blocks.map Block.data
        = [PosData.tup [0, 0, 0], PosData.tup [1, 2, 3]].filterMap entryData ∧
      ∀ x y z : Int, entryData (PosData.tup [x, y, z]) =
        some ⟨⟨x, y, z⟩, "grass", PyColor.green⟩) :=
  ⟨by decide, claim_C1 WorldGenerator.init
    [PosData.tup [0, 0, 0], PosData.tup [1, 2, 3]] (fun _ => (0, 0, 0)) (by decide)⟩

/-- C3: for every record (dict) entry with a `position` key, `generate_world`
creates a Block at that position whose type is the record's `type` value when
present (else "grass") and whose color is the record's `color` value when
present (else green); the returned blocks are exactly the per-entry
normalizations, and a dict with a position normalizes to exactly that block. -/
theorem claim_C3 (w : WorldGenerator) (entries : List PosData)
    (rand : Nat → Int × Int × Int)
    (h : ∀ e ∈ entries, isMissingPositionDict e = false) :
    ∃ w' : WorldGenerator,
      generate_world w (some entries) rand = .ok (w', w'.blocks) ∧
      w'.blocks.map Block.data = entries.filterMap entryData ∧
      ∀ (x y z : Int) (c : Option PyColor) (t : Option String),
        entryData (PosData.dict (some (x, y, z)) c t) =
          some ⟨⟨x, y, z⟩, t.getD "grass", c.getD PyColor.green⟩ := by
  refine ⟨generatedState w entries, generate_world_some_ok w entries rand h, ?_, ?_⟩
  · exact newBlocks_map_data entries w.next_entity
  · intro x y z c t; rfl

/-- Witness for C3 at a one-dict producer output: type "stone", no color. -/
theorem claim_C3_witness :
    (∀ e ∈ [PosData.dict (some (0, 1, 0)) none (some "stone")],
      isMissingPositionDict e = false) ∧
    (∃ w' : WorldGenerator,
      generate_world WorldGenerator.init
        (some [PosData.dict (some (0, 1, 0)) none (some "stone")])
        (fun _ => (0, 0, 0)) = .ok (w', w'.blocks) ∧
      w'.blocks.map Block.data
        = [PosData.dict (some (0, 1, 0)) none (some "stone")].filterMap entryData ∧
      ∀ (x y z : Int) (c : Option PyColor) (t : Option String),
        entryData (PosData.dict (some (x, y, z)) c t) =
          some ⟨⟨x, y, z⟩, t.getD "grass", c.getD PyColor.green⟩) :=
  ⟨by decide, claim_C3 WorldGenerator.init
    [PosData.dict (some (0, 1, 0)) none (some "stone")] (fun _ => (0, 0, 0))
    (by decide)⟩

/-- C10: `generate_world` preserves producer order — the stored block list is
the order-preserving image (`List.filterMap`) of the producer's entries under
the per-entry normalization, with invalid entries removed and no
reordering. -/
theorem claim_C10 (w : WorldGenerator) (entries : List PosData)
    (rand : Nat → Int × Int × Int)
    (h : ∀ e ∈ entries, isMissingPositionDict e = false) :
    ∃ w' : WorldGenerator,
      generate_world w (some entries) rand = .ok (w', w'.blocks) ∧
      w'.blocks.map Block.data = entries.filterMap entryData := by
  exact ⟨generatedState w entries, generate_world_some_ok w entries rand h,
    newBlocks_map_data entries w.next_entity⟩

/-- Witness for C10 at a producer output mixing the entry shapes. -/
theorem claim_C10_witness :
    (∀ e ∈ [PosData.tup [2, 0, 2], PosData.other,
        PosData.dict (some (0, 1, 0)) (some PyColor.red) none, PosData.tup [5, 5]],
      isMissingPositionDict e = false) ∧
    (∃ w' : WorldGenerator,
      generate_world WorldGenerator.init
        (some [PosData.tup [2, 0, 2], PosData.other,
          PosData.dict (some (0, 1, 0)) (some PyColor.red) none, PosData.tup [5, 5]])
        (fun _ => (0, 0, 0)) = .ok (w', w'.blocks) ∧
      w'.blocks.map Block.data
        = [PosData.tup [2, 0, 2], PosData.other,
            PosData.dict (some (0, 1, 0)) (some PyColor.red) none,
            PosData.tup [5, 5]].filterMap entryData) :=
  ⟨by decide, claim_C10 WorldGenerator.init
    [PosData.tup [2, 0, 2], PosData.other,
      PosData.dict (some (0, 1, 0)) (some PyColor.red) none, PosData.tup [5, 5]]
    (fun _ => (0, 0, 0)) (by decide)⟩

/-- C5: `clear_world` empties the block registry — `get_world_info` reports
`total_blocks = 0` immediately afterwards — and `clear_world` is idempotent:
a second consecutive call leaves the state unchanged. -/
theorem claim_C5 (w : WorldGenerator) :
    (get_world_info (clear_world w)).total_blocks = 0 ∧
    clear_world (clear_world w) = clear_world w := by
  constructor
  · rfl
  · obtain ⟨bs, ws, sc, ne⟩ := w
    simp [clear_world]

/-- C2 counterexample: a dict entry without a `position` key is a record that
does not contain `position`, yet `generate_world` raises `KeyError("position")`
on it instead of skipping it. -/
theorem claim_C2_counterexample :
    isMissingPositionDict (PosData.dict none none none) = true ∧
    generate_world WorldGenerator.init (some [PosData.dict none none none])
      (fun _ => (0, 0, 0)) = .error (.keyError "position") := by
  exact ⟨rfl, rfl⟩

/-- C2 as amended: entries that are neither 3-element tuples nor dicts are
skipped — excluded from the block collection with no exception — but a dict
lacking the `position` key is not skipped: `generate_world` raises
`KeyError("position")` on it. -/
theorem claim_C2_amended (w : WorldGenerator) (entries : List PosData)
    (rand : Nat → Int × Int × Int)
    (h : ∀ e ∈ entries, isMissingPositionDict e = false) :
    (∀ e : PosData, isSkippedEntry e = true → entryData e = none) ∧
    (∃ w' : WorldGenerator,
      generate_world w (some entries) rand = .ok (w', w'.blocks) ∧
      w'.blocks.map Block.data = entries.filterMap entryData) ∧
    (∀ (c : Option PyColor) (t : Option String) (rand2 : Nat → Int × Int × Int),
      generate_world w (some (entries ++ [PosData.dict none c t])) rand2 =
        .error (.keyError "position")) := by
  refine ⟨skipped_entryData_none, ⟨generatedState w entries,
    generate_world_some_ok w entries rand h,
    newBlocks_map_data entries w.next_entity⟩, ?_⟩
  intro c t rand2
  simp only [generate_world]
  rw [generateLoop_append, generateLoop_ok entries (clear_world w) h]
  simp [Except.bind, generateLoop, processEntry]

/-- Witness for the amended C2 at a producer output holding a string-like
entry and a short tuple. -/
theorem claim_C2_amended_witness :
    (∀ e ∈ [PosData.other, PosData.tup [1, 2]], isMissingPositionDict e = false) ∧
    ((∀ e : PosData, isSkippedEntry e = true → entryData e = none) ∧
    (∃ w' : WorldGenerator,
      generate_world WorldGenerator.init (some [PosData.other, PosData.tup [1, 2]])
        (fun _ => (0, 0, 0)) = .ok (w', w'.blocks) ∧
      w'.blocks.map Block.data
        = [PosData.other, PosData.tup [1, 2]].filterMap entryData) ∧
    (∀ (c : Option PyColor) (t : Option String) (rand2 : Nat → Int × Int × Int),
      generate_world WorldGenerator.init
        (some ([PosData.other, PosData.tup [1, 2]] ++ [PosData.dict none c t]))
        rand2 = .error (.keyError "position"))) :=
  ⟨by decide, claim_C2_amended WorldGenerator.init [PosData.other, PosData.tup [1, 2]]
    (fun _ => (0, 0, 0)) (by decide)⟩

lemma groundData_mem (m : Nat) (d : BlockData)
    (hd : d ∈ ((List.range m).flatMap fun (x : Nat) =>
        (List.range m).map fun (z : Nat) =>
          PosData.tup [(x : Int), 0, (z : Int)]).filterMap entryData) :
    ∃ x z : Nat, x < m ∧ z < m ∧ d = ⟨⟨x, 0, z⟩, "grass", PyColor.green⟩ := by
  rcases List.mem_filterMap.mp hd with ⟨e, he, hfe⟩
  rcases List.mem_flatMap.mp he with ⟨x, hx, hxm⟩
  rcases List.mem_map.mp hxm with ⟨z, hz, rfl⟩
  refine ⟨x, z, List.mem_range.mp hx, List.mem_range.mp hz, ?_⟩
  simpa [entryData] using hfe.symm

lemma groundData_length (m : Nat) :
    (((List.range m).flatMap fun (x : Nat) =>
        (List.range m).map fun (z : Nat) =>
          PosData.tup [(x : Int), 0, (z : Int)]).filterMap entryData).length
      = m * m := by
  rw [length_filterMap_of_isSome]
  · exact length_grid m m _
  · intro e he
    rcases List.mem_flatMap.mp he with ⟨x, _, hxm⟩
    rcases List.mem_map.mp hxm with ⟨z, _, rfl⟩
    rfl

lemma extraData_mem (rand : Nat → Int × Int × Int) (d : BlockData)
    (hd : d ∈ ((List.range 20).map fun i =>
        PosData.tup [(rand i).1, (rand i).2.1, (rand i).2.2]).filterMap entryData) :
    ∃ i : Nat, i < 20 ∧
      d = ⟨⟨(rand i).1, (rand i).2.1, (rand i).2.2⟩, "grass", PyColor.green⟩ := by
  rcases List.mem_filterMap.mp hd with ⟨e, he, hfe⟩
  rcases List.mem_map.mp he with ⟨i, hi, rfl⟩
  refine ⟨i, List.mem_range.mp hi, ?_⟩
  simpa [entryData] using hfe.symm

lemma extraData_length (rand : Nat → Int × Int × Int) :
    (((List.range 20).map fun i =>
        PosData.tup [(rand i).1, (rand i).2.1, (rand i).2.2]).filterMap
          entryData).length = 20 := by
  rw [length_filterMap_of_isSome]
  · simp
  · intro e he
    rcases List.mem_map.mp he with ⟨i, _, rfl⟩
    rfl

/-- C4: with no producer, the default producer is used and the resulting world
has exactly `world_size * world_size` ground blocks at `y = 0` plus exactly 20
extra blocks at heights 1 to 3, for a total of `world_size * world_size + 20`
blocks; `rand` stands for the `random.randint` draws, constrained to the
bounds the code requests. -/
theorem claim_C4 (w : WorldGenerator) (rand : Nat → Int × Int × Int)
    (hrand : ∀ i ∈ List.range 20,
      0 ≤ (rand i).1 ∧ (rand i).1 ≤ (w.world_size : Int) - 1 ∧
      1 ≤ (rand i).2.1 ∧ (rand i).2.1 ≤ 3 ∧
      0 ≤ (rand i).2.2 ∧ (rand i).2.2 ≤ (w.world_size : Int) - 1) :
    ∃ w' : WorldGenerator,
      generate_world w none rand = .ok (w', w'.blocks) ∧
      (w'.blocks.countP fun b => decide (b.position.y = 0))
        = w.world_size * w.world_size ∧
      (w'.blocks.countP fun b => decide (1 ≤ b.position.y ∧ b.position.y ≤ 3)) = 20 ∧
      w'.blocks.length = w.world_size * w.world_size + 20 := by
  refine ⟨generatedState w (simple_random_world w rand),
    generate_world_none_ok w rand (simple_random_world_no_missing w rand), ?_, ?_, ?_⟩
  · have hmap := newBlocks_map_data (simple_random_world w rand) w.next_entity
    have hc : ((generatedState w (simple_random_world w rand)).blocks.map
        Block.data).countP (fun d => decide (d.position.y = 0))
        = (generatedState w (simple_random_world w rand)).blocks.countP
            (fun b => decide (b.position.y = 0)) :=
      List.countP_map _ Block.data _
    rw [← hc]
    simp only [generatedState]
    rw [hmap]
    simp only [simple_random_world, List.filterMap_append]
    rw [List.countP_append]
    have hg : (((List.range w.world_size).flatMap fun (x : Nat) =>
        (List.range w.world_size).map fun (z : Nat) =>
          PosData.tup [(x : Int), 0, (z : Int)]).filterMap entryData).countP
            (fun d => decide (d.position.y = 0))
        = w.world_size * w.world_size := by
      rw [List.countP_eq_length.mpr, groundData_length]
      intro d hd
      rcases groundData_mem w.world_size d hd with ⟨x, z, _, _, rfl⟩
      simp
    have hx : (((List.range 20).map fun i =>
        PosData.tup [(rand i).1, (rand i).2.1, (rand i).2.2]).filterMap
          entryData).countP (fun d => decide (d.position.y = 0)) = 0 := by
      rw [List.countP_eq_zero.mpr]
      intro d hd
      rcases extraData_mem rand d hd with ⟨i, hi, rfl⟩
      have := (hrand i (List.mem_range.mpr hi)).2.2.1
      simp only [decide_eq_true_eq]
      omega
    rw [hg, hx]
    omega
  · have hmap := newBlocks_map_data (simple_random_world w rand) w.next_entity
    have hc : ((generatedState w (simple_random_world w rand)).blocks.map
        Block.data).countP (fun d => decide (1 ≤ d.position.y ∧ d.position.y ≤ 3))
        = (generatedState w (simple_random_world w rand)).blocks.countP
            (fun b => decide (1 ≤ b.position.y ∧ b.position.y ≤ 3)) :=
      List.countP_map _ Block.data _
    rw [← hc]
    simp only [generatedState]
    rw [hmap]
    simp only [simple_random_world, List.filterMap_append]
    rw [List.countP_append]
    have hg : (((List.range w.world_size).flatMap fun (x : Nat) =>
        (List.range w.world_size).map fun (z : Nat) =>
          PosData.tup [(x : Int), 0, (z : Int)]).filterMap entryData).countP
            (fun d => decide (1 ≤ d.position.y ∧ d.position.y ≤ 3)) = 0 := by
      rw [List.countP_eq_zero.mpr]
      intro d hd
      rcases groundData_mem w.world_size d hd with ⟨x, z, _, _, rfl⟩
      simp
    have hx : (((List.range 20).map fun i =>
        PosData.tup [(rand i).1, (rand i).2.1, (rand i).2.2]).filterMap
          entryData).countP (fun d => decide (1 ≤ d.position.y ∧ d.position.y ≤ 3))
        = 20 := by
      rw [List.countP_eq_length.mpr, extraData_length]
      intro d hd
      rcases extraData_mem rand d hd with ⟨i, hi, rfl⟩
      have h1 := (hrand i (List.mem_range.mpr hi)).2.2.1
      have h2 := (hrand i (List.mem_range.mpr hi)).2.2.2.1
      simp only [decide_eq_true_eq]
      omega
    rw [hg, hx]
  · have hlen : (generatedState w (simple_random_world w rand)).blocks.length
        = ((simple_random_world w rand).filterMap entryData).length :=
      newBlocks_length (simple_random_world w rand) w.next_entity
    rw [hlen]
    rw [length_filterMap_of_isSome]
    · exact simple_random_world_length w rand
    · intro e he
      rcases mem_simple_random_world w rand e he with ⟨x, z, _, _, rfl⟩ | ⟨i, _, rfl⟩ <;> rfl

/-- Witness for C4 at the initial generator (`world_size = 16`) with all
random draws equal to `(0, 1, 0)`. -/
theorem claim_C4_witness :
    (∀ i ∈ List.range 20,
      0 ≤ ((fun _ => ((0 : Int), (1 : Int), (0 : Int))) i).1 ∧
      ((fun _ => ((0 : Int), (1 : Int), (0 : Int))) i).1
        ≤ (WorldGenerator.init.world_size : Int) - 1 ∧
      1 ≤ ((fun _ => ((0 : Int), (1 : Int), (0 : Int))) i).2.1 ∧
      ((fun _ => ((0 : Int), (1 : Int), (0 : Int))) i).2.1 ≤ 3 ∧
      0 ≤ ((fun _ => ((0 : Int), (1 : Int), (0 : Int))) i).2.2 ∧
      ((fun _ => ((0 : Int), (1 : Int), (0 : Int))) i).2.2
        ≤ (WorldGenerator.init.world_size : Int) - 1) ∧
    (∃ w' : WorldGenerator,
      generate_world WorldGenerator.init none (fun _ => ((0 : Int), (1 : Int), (0 : Int)))
        = .ok (w', w'.blocks) ∧
      (w'.blocks.countP fun b => decide (b.position.y = 0))
        = WorldGenerator.init.world_size * WorldGenerator.init.world_size ∧
      (w'.blocks.countP fun b => decide (1 ≤ b.position.y ∧ b.position.y ≤ 3)) = 20 ∧
      w'.blocks.length
        = WorldGenerator.init.world_size * WorldGenerator.init.world_size + 20) :=
  ⟨by decide, claim_C4 WorldGenerator.init
    (fun _ => ((0 : Int), (1 : Int), (0 : Int))) (by decide)⟩

/-- C6: two successive `generate_world` calls leave alive exactly the Blocks
of the second call's valid entries — the registry holds precisely their
normalizations, and no Block of the first call survives: none of its entities
is still attached to the scene. -/
theorem claim_C6 (w : WorldGenerator) (es1 es2 : List PosData)
    (r1 r2 : Nat → Int × Int × Int)
    (h1 : ∀ e ∈ es1, isMissingPositionDict e = false)
    (h2 : ∀ e ∈ es2, isMissingPositionDict e = false) :
    ∃ w1 w2 : WorldGenerator,
      generate_world w (some es1) r1 = .ok (w1, w1.blocks) ∧
      generate_world w1 (some es2) r2 = .ok (w2, w2.blocks) ∧
      w2.blocks.map Block.data = es2.filterMap entryData ∧
      ∀ b ∈ w1.blocks, b.entity ∉ w2.scene := by
  refine ⟨generatedState w es1, generatedState (generatedState w es1) es2,
    generate_world_some_ok w es1 r1 h1,
    generate_world_some_ok (generatedState w es1) es2 r2 h2,
    newBlocks_map_data es2 (generatedState w es1).next_entity, ?_⟩
  intro b hb hmem
  have hb' : b ∈ newBlocks es1 w.next_entity := hb
  have hlt : b.entity < (generatedState w es1).next_entity := by
    have := (newBlocks_entity_bounds es1 w.next_entity b hb').2
    simpa [generatedState] using this
  simp only [generatedState, clear_world] at hmem
  rcases List.mem_append.mp hmem with hc | hn
  · have hmf := List.mem_filter.mp hc
    have hin : b.entity ∈ (generatedState w es1).blocks.map Block.entity :=
      List.mem_map.mpr ⟨b, hb, rfl⟩
    have hcontra := hmf.2
    simp only [Bool.not_eq_true', ← List.elem_iff] at hcontra
    simp at hcontra
    exact hcontra b hb' rfl
  · rcases List.mem_map.mp hn with ⟨b2, hb2, he2⟩
    have hge := (newBlocks_entity_bounds es2 (generatedState w es1).next_entity b2 hb2).1
    omega

/-- Witness for C6: a one-block world regenerated into a two-block world. -/
theorem claim_C6_witness :
    (∀ e ∈ [PosData.tup [0, 0, 0]], isMissingPositionDict e = false) ∧
    (∀ e ∈ [PosData.tup [1, 0, 1], PosData.tup [2, 0, 2]],
      isMissingPositionDict e = false) ∧
    (∃ w1 w2 : WorldGenerator,
      generate_world WorldGenerator.init (some [PosData.tup [0, 0, 0]])
        (fun _ => (0, 0, 0)) = .ok (w1, w1.blocks) ∧
      generate_world w1 (some [PosData.tup [1, 0, 1], PosData.tup [2, 0, 2]])
        (fun _ => (0, 0, 0)) = .ok (w2, w2.blocks) ∧
      w2.blocks.map Block.data
        = [PosData.tup [1, 0, 1], PosData.tup [2, 0, 2]].filterMap entryData ∧
      ∀ b ∈ w1.blocks, b.entity ∉ w2.scene) :=
  ⟨by decide, by decide,
    claim_C6 WorldGenerator.init [PosData.tup [0, 0, 0]]
      [PosData.tup [1, 0, 1], PosData.tup [2, 0, 2]]
      (fun _ => (0, 0, 0)) (fun _ => (0, 0, 0)) (by decide) (by decide)⟩

/-- C7 counterexample: after one update tick with shift held, the controller's
speed is the run speed 8; if the input source then becomes unavailable,
`get_movement_info` still returns without raising and with
`is_moving = is_running = False`, but its `speed` field is 8 — the
controller's current speed — not the normal speed 5 the claim requires. -/
theorem claim_C7_counterexample :
    lostInputEnv.held_keys = none ∧
    (Player.get_movement_info runningPlayer lostInputEnv).is_moving = false ∧
    (Player.get_movement_info runningPlayer lostInputEnv).is_running = false ∧
    (Player.get_movement_info runningPlayer lostInputEnv).speed = 8 ∧
    runningPlayer.normal_speed = 5 ∧
    (Player.get_movement_info runningPlayer lostInputEnv).speed ≠
      runningPlayer.normal_speed := by
  decide

/-- C7 as amended: `get_movement_info` never raises — it is total and always
returns the five-field record — and when the input source is unavailable it
reports `is_moving = False` and `is_running = False`, with position the zero
vector or the last known controller position, and speed equal to the
controller's current speed (the normal speed on the full fallback path or when
the speed attribute is missing). -/
theorem claim_C7_amended (p : PlayerState) (env : EngineEnv)
    (h : env.held_keys = none) :
    (Player.get_movement_info p env).is_moving = false ∧
    (Player.get_movement_info p env).is_running = false ∧
    ((Player.get_movement_info p env).position = ⟨0, 0, 0⟩ ∨
      (Player.get_movement_info p env).position = p.controller.position) ∧
    ((Player.get_movement_info p env).speed = p.controller.speed.getD p.normal_speed ∨
      (Player.get_movement_info p env).speed = p.normal_speed) := by
  obtain ⟨hk, cf, cr⟩ := env
  simp only at h
  subst h
  cases cr <;> cases cf <;>
    simp [Player.get_movement_info, Player.get_position,
      Player.get_looking_direction, Player.is_moving, Player.is_running,
      Except.bind, bind, pure, Except.pure]

/-- Witness for the amended C7 at the running player in the lost-input
environment. -/
theorem claim_C7_amended_witness :
    lostInputEnv.held_keys = none ∧
    ((Player.get_movement_info runningPlayer lostInputEnv).is_moving = false ∧
    (Player.get_movement_info runningPlayer lostInputEnv).is_running = false ∧
    ((Player.get_movement_info runningPlayer lostInputEnv).position = ⟨0, 0, 0⟩ ∨
      (Player.get_movement_info runningPlayer lostInputEnv).position =
        runningPlayer.controller.position) ∧
    ((Player.get_movement_info runningPlayer lostInputEnv).speed =
        runningPlayer.controller.speed.getD runningPlayer.normal_speed ∨
      (Player.get_movement_info runningPlayer lostInputEnv).speed =
        runningPlayer.normal_speed)) :=
  ⟨by decide, claim_C7_amended runningPlayer lostInputEnv (by decide)⟩

/-- C8: the key dispatch map is as claimed for `h`, `g`, `escape` and after a
world has been loaded also for `r` — but in the freshly initialized game the
claim fails: `__init__` never assigns `self.current_world`, so the very first
press of `r` raises `AttributeError` instead of reloading. -/
theorem claim_C8_code_bug :
    MadMineGame.input MadMineGame.init "r"
      = .error (.attributeError "current_world") ∧
    MadMineGame.input MadMineGame.init "h"
      = .ok { MadMineGame.init with
          game_ui := GameUI.toggle_help MadMineGame.init.game_ui } ∧
    MadMineGame.input MadMineGame.init "g"
      = .ok { MadMineGame.init with world_ui_visible := true } ∧
    MadMineGame.input MadMineGame.init "escape"
      = .ok MadMineGame.init.quit_game ∧
    ((MadMineGame.input MadMineGame.init "1").bind fun g1 =>
      MadMineGame.input g1 "r").isOk = true := by
  exact ⟨rfl, rfl, rfl, rfl, rfl⟩

/-- C9: an exception in the player-info or world-info UI update is caught
inside the tick, but the FPS-counter update runs outside the `try` block, so
an engine error in `game_ui.update_fps` propagates out of the per-tick update
instead of being swallowed. -/
theorem claim_C9_code_bug :
    MadMineGame.update MadMineGame.init fpsFailTick
      = .error (.engineError "fps text") ∧
    (MadMineGame.update MadMineGame.init uiFailTick).isOk = true := by
  exact ⟨rfl, rfl⟩

end MadMine
